import Mathlib

/-!
Shallow embedding of the observability subsystem of the `mcp_arena`
repository (`mcp_arena/observability/{logging,metrics,tracing,integrated}.py`)
together with theorems settling the specification claims about it.

Modelling conventions:
* Python wall-clock timestamps (`datetime.now()`, `time.time()`) are modelled
  as rational numbers of seconds supplied as explicit `now` arguments.
* Python dicts (which preserve insertion order) are modelled as association
  lists `List (String × _)`; `dictInsert` has the update-in-place-or-append
  semantics of a dict assignment, `dictLookup` that of `d.get(k)`.
* Python exceptions are modelled with `Except PyExc` (for code that raises)
  or explicit result inductives (for tool endpoints that return error dicts);
  `PyExc` carries the exception class name and message.
* Python float values are modelled as `ℚ`; string formatting of numbers is
  abstracted by `fmtQ`.
-/

set_option autoImplicit false

/-- A Python exception value: class name (for example TypeError) and message. -/
structure PyExc where
  ty : String
  msg : String
deriving DecidableEq

/-- Insertion-ordered dict assignment `d[k] = v`: replaces the value at an
existing key in place, otherwise appends the new binding at the end. -/
def dictInsert {α : Type} (k : String) (v : α) : List (String × α) → List (String × α)
  | [] => [(k, v)]
  | (k', v') :: rest => if k = k' then (k, v) :: rest else (k', v') :: dictInsert k v rest

/-- Dict lookup `d.get(k)`: first binding with the given key. -/
def dictLookup {α : Type} (k : String) : List (String × α) → Option α
  | [] => none
  | (k', v) :: rest => if k = k' then some v else dictLookup k rest

/-- Python list slice `l[i:]` including the negative-index convention. -/
def pySliceFrom {α : Type} (l : List α) (i : Int) : List α :=
  if 0 ≤ i then l.drop i.toNat else l.drop ((l.length : Int) + i).toNat

/-- Truthiness of an optional Python string (`None` and the empty string are falsy). -/
def optStrTruthy : Option String → Bool
  | none => false
  | some s => decide (s ≠ "")

/-- Truthiness of an optional Python number (`None` and `0` are falsy). -/
def optRatTruthy : Option ℚ → Bool
  | none => false
  | some q => decide (q ≠ 0)

/-- Abstraction of Python float-to-string formatting used in log messages. -/
def fmtQ (q : ℚ) : String := toString q.num

/-! ### Logging (`mcp_arena/observability/logging.py`) -/

/-- Log severity levels of `LogLevel`. -/
inductive LogLevel where
  | DEBUG | INFO | WARNING | ERROR | CRITICAL
deriving DecidableEq

/-- The `LogEntry` dataclass. -/
structure LogEntry where
  timestamp : ℚ
  level : LogLevel
  message : String
  server_name : String
  server_type : String
  tool_name : Option String := none
  user_id : Option String := none
  session_id : Option String := none
  request_id : Option String := none
  duration_ms : Option ℚ := none
  error_details : Option (List (String × String)) := none
  metadata : Option (List (String × String)) := none
deriving DecidableEq

/-- Mutable state of an `MCPLogger` (the stdlib logging handlers perform
external output only and carry no state the spec claims mention). -/
structure MCPLoggerState where
  server_name : String
  server_type : String
  session_id : String
  log_buffer : List LogEntry
  max_buffer_size : Nat
deriving DecidableEq

namespace MCPLogger

/-- A fresh `MCPLogger` as built by `__init__` (buffer empty, capacity 1000). -/
def init (server_name server_type session_id : String) : MCPLoggerState :=
  { server_name := server_name, server_type := server_type, session_id := session_id
    log_buffer := [], max_buffer_size := 1000 }

/-- The buffer update performed by `MCPLogger.log`: append, then if the length
exceeds `max_buffer_size` keep only the last `max_buffer_size` entries
(`self.log_buffer = self.log_buffer[-self.max_buffer_size:]`). -/
def logBufferStep (maxSize : Nat) (buf : List LogEntry) (e : LogEntry) : List LogEntry :=
  let buf := buf ++ [e]
  if buf.length > maxSize then buf.drop (buf.length - maxSize) else buf

/-- `MCPLogger.log`: build the structured entry, append it to the bounded
buffer, and return it. -/
def log (st : MCPLoggerState) (now : ℚ) (level : LogLevel) (message : String)
    (tool_name user_id request_id : Option String) (duration_ms : Option ℚ)
    (error_details metadata : Option (List (String × String))) :
    MCPLoggerState × LogEntry :=
  let entry : LogEntry :=
    { timestamp := now, level := level, message := message
      server_name := st.server_name, server_type := st.server_type
      tool_name := tool_name, user_id := user_id, session_id := some st.session_id
      request_id := request_id, duration_ms := duration_ms
      error_details := error_details, metadata := metadata }
  ({ st with log_buffer := logBufferStep st.max_buffer_size st.log_buffer entry }, entry)

/-- `MCPLogger.get_logs`: filter by level and tool name, then return the last
`limit` entries (`filtered_logs[-limit:]`). -/
def get_logs (st : MCPLoggerState) (level : Option LogLevel) (tool_name : Option String)
    (limit : Int) : List LogEntry :=
  let fl := st.log_buffer
  let fl := match level with
    | some lv => fl.filter (fun e => decide (e.level = lv))
    | none => fl
  let fl := if optStrTruthy tool_name then
      fl.filter (fun e => decide (e.tool_name = tool_name)) else fl
  pySliceFrom fl (-limit)

/-- Argument bundle of one `MCPLogger.log` call. -/
structure LogCall where
  now : ℚ
  level : LogLevel
  message : String
  tool_name : Option String := none
  user_id : Option String := none
  request_id : Option String := none
  duration_ms : Option ℚ := none
  error_details : Option (List (String × String)) := none
  metadata : Option (List (String × String)) := none
deriving DecidableEq

/-- Run one bundled `log` call for its state effect. -/
def applyLogCall (st : MCPLoggerState) (c : LogCall) : MCPLoggerState :=
  (log st c.now c.level c.message c.tool_name c.user_id c.request_id
    c.duration_ms c.error_details c.metadata).1

/-- The entry a bundled `log` call creates on the given logger. -/
def mkEntry (st : MCPLoggerState) (c : LogCall) : LogEntry :=
  { timestamp := c.now, level := c.level, message := c.message
    server_name := st.server_name, server_type := st.server_type
    tool_name := c.tool_name, user_id := c.user_id, session_id := some st.session_id
    request_id := c.request_id, duration_ms := c.duration_ms
    error_details := c.error_details, metadata := c.metadata }

end MCPLogger

/-! ### Metrics (`mcp_arena/observability/metrics.py`) -/

/-- The `MetricType` enum. -/
inductive MetricType where
  | COUNTER | GAUGE | HISTOGRAM | TIMER
deriving DecidableEq

/-- `MetricType(s)`: enum construction from the string value; an unknown
string raises ValueError in Python, modelled as `none`. -/
def MetricType.ofString : String → Option MetricType
  | "counter" => some .COUNTER
  | "gauge" => some .GAUGE
  | "histogram" => some .HISTOGRAM
  | "timer" => some .TIMER
  | _ => none

/-- The `Metric` dataclass. -/
structure Metric where
  name : String
  type : MetricType
  value : ℚ
  timestamp : ℚ
  server_name : String
  tool_name : Option String := none
  tags : List (String × String) := []
  metadata : List (String × String) := []
deriving DecidableEq

/-- Mutable state of an `MCPMetricsCollector`. -/
structure CollectorState where
  server_name : String
  metrics_buffer : List Metric
  max_buffer_size : Nat
  counters : List (String × ℚ)
  gauges : List (String × ℚ)
deriving DecidableEq

namespace MCPMetricsCollector

/-- A fresh `MCPMetricsCollector` (empty buffer of capacity 5000, no counters
or gauges). -/
def init (server_name : String) : CollectorState :=
  { server_name := server_name, metrics_buffer := [], max_buffer_size := 5000
    counters := [], gauges := [] }

/-- `MCPMetricsCollector.record`: build the `Metric`, append it to the bounded
buffer (keeping the last `max_buffer_size` entries on overflow), then update
the counter running total or overwrite the gauge according to the type. -/
def record (st : CollectorState) (now : ℚ) (metric_type : MetricType) (name : String)
    (value : ℚ) (tool_name : Option String) (tags metadata : Option (List (String × String))) :
    CollectorState × Metric :=
  let metric : Metric :=
    { name := name, type := metric_type, value := value, timestamp := now
      server_name := st.server_name, tool_name := tool_name
      tags := tags.getD [], metadata := metadata.getD [] }
  let buf := st.metrics_buffer ++ [metric]
  let buf := if buf.length > st.max_buffer_size then buf.drop (buf.length - st.max_buffer_size) else buf
  let st := { st with metrics_buffer := buf }
  let st :=
    if metric_type = MetricType.COUNTER then
      { st with counters := dictInsert name ((dictLookup name st.counters).getD 0 + value) st.counters }
    else if metric_type = MetricType.GAUGE then
      { st with gauges := dictInsert name value st.gauges }
    else st
  (st, metric)

/-- `MCPMetricsCollector.increment_counter`. -/
def increment_counter (st : CollectorState) (now : ℚ) (name : String) (value : ℚ)
    (tool_name : Option String) (tags metadata : Option (List (String × String))) :
    CollectorState × Metric :=
  record st now MetricType.COUNTER name value tool_name tags metadata

/-- `MCPMetricsCollector.set_gauge`. -/
def set_gauge (st : CollectorState) (now : ℚ) (name : String) (value : ℚ)
    (tool_name : Option String) (tags metadata : Option (List (String × String))) :
    CollectorState × Metric :=
  record st now MetricType.GAUGE name value tool_name tags metadata

/-- `MCPMetricsCollector.record_timer`. -/
def record_timer (st : CollectorState) (now : ℚ) (name : String) (duration_ms : ℚ)
    (tool_name : Option String) (tags metadata : Option (List (String × String))) :
    CollectorState × Metric :=
  record st now MetricType.TIMER name duration_ms tool_name tags metadata

/-- The currently buffered samples with the given name and COUNTER type, in
buffer order (the list comprehension inside `get_metrics_summary`). -/
def counterSamples (st : CollectorState) (name : String) : List Metric :=
  st.metrics_buffer.filter (fun m => decide (m.name = name ∧ m.type = MetricType.COUNTER))

/-- The per-counter rate computation of `get_metrics_summary`: only when more
than one sample with this name is buffered and the elapsed time between the
first and last buffered sample is strictly positive is
`total / elapsed` produced. -/
def rateFor (st : CollectorState) (name : String) (total : ℚ) : Option ℚ :=
  let counter_metrics := counterSamples st name
  if 1 < counter_metrics.length then
    match counter_metrics.head?, counter_metrics.getLast? with
    | some first, some last =>
      let time_diff := last.timestamp - first.timestamp
      if 0 < time_diff then some (total / time_diff) else none
    | _, _ => none
  else none

/-- The dictionary returned by `get_metrics_summary`. -/
structure MetricsSummary where
  server : String
  total_metrics : Nat
  counters : List (String × ℚ)
  gauges : List (String × ℚ)
  recent_metrics : List Metric
  counter_rates : List (String × ℚ)
deriving DecidableEq

/-- `MCPMetricsCollector.get_metrics_summary`: totals, last 20 buffered
metrics, and a rate for each tracked counter for which `rateFor` produces one. -/
def get_metrics_summary (st : CollectorState) : MetricsSummary :=
  { server := st.server_name
    total_metrics := st.metrics_buffer.length
    counters := st.counters
    gauges := st.gauges
    recent_metrics := pySliceFrom st.metrics_buffer (-20)
    counter_rates := st.counters.filterMap (fun kv => (rateFor st kv.1 kv.2).map (fun r => (kv.1, r))) }

/-- Elapsed time between the first and last entries of a buffered sample list
(zero when the list is too short to have both). -/
def bufElapsed (l : List Metric) : ℚ :=
  match l.head?, l.getLast? with
  | some first, some last => last.timestamp - first.timestamp
  | _, _ => 0

/-- Structural invariant of `MCPMetricsCollector` state: the counters dict has
no duplicate keys, and every buffered COUNTER sample has a tracked running
total (both hold for every state reachable through `record`). -/
def WF (st : CollectorState) : Prop :=
  (st.counters.map Prod.fst).Nodup ∧
  ∀ m ∈ st.metrics_buffer, m.type = MetricType.COUNTER → (dictLookup m.name st.counters).isSome

instance (st : CollectorState) : Decidable (WF st) := by
  unfold WF; infer_instance

end MCPMetricsCollector

/-- Result of the `record_server_metric` tool of `MetricsMCPServer`. -/
inductive RecordMetricResult where
  | ok (m : Metric)
  | errUnregistered (msg : String)
  | exn (e : PyExc)
deriving DecidableEq

/-- Mutable state of a `MetricsMCPServer`. -/
structure MetricsServerState where
  collectors : List (String × CollectorState)
  metrics_history : List (String × List Metric)
deriving DecidableEq

/-- The ValueError raised by `MetricType(metric_type)` on an unknown value. -/
def invalidMetricTypeError (ty : String) : PyExc :=
  { ty := "ValueError", msg := ty ++ " is not a valid MetricType" }

/-- The `record_server_metric` tool: unregistered server names give an error
dict; an unknown metric type string makes `MetricType(metric_type)` raise
ValueError before `collector.record` runs, leaving all stores untouched;
otherwise the metric is recorded and appended to the server history (a
missing history key would raise KeyError after the collector mutation). -/
def record_server_metric (st : MetricsServerState) (now : ℚ) (server_name metric_type metric_name : String)
    (value : ℚ) (tool_name : Option String) (tags : Option (List (String × String))) :
    MetricsServerState × RecordMetricResult :=
  match dictLookup server_name st.collectors with
  | none => (st, .errUnregistered ("Server " ++ server_name ++ " not registered for metrics"))
  | some collector =>
    match MetricType.ofString metric_type with
    | none => (st, .exn (invalidMetricTypeError metric_type))
    | some mt =>
      let (collector', metric) := MCPMetricsCollector.record collector now mt metric_name value tool_name tags none
      let st' := { st with collectors := dictInsert server_name collector' st.collectors }
      match dictLookup server_name st.metrics_history with
      | some hist =>
        ({ st' with metrics_history := dictInsert server_name (hist ++ [metric]) st.metrics_history }, .ok metric)
      | none => (st', .exn { ty := "KeyError", msg := server_name })

/-! ### Tracing (`mcp_arena/observability/tracing.py`) -/

/-- The `TraceStatus` enum. -/
inductive TraceStatus where
  | STARTED | SUCCESS | ERROR | WARNING
deriving DecidableEq

/-- The `Span` dataclass. -/
structure Span where
  span_id : String
  trace_id : String
  parent_span_id : Option String
  name : String
  server_name : String
  tool_name : String
  start_time : ℚ
  end_time : Option ℚ := none
  duration_ms : Option ℚ := none
  status : TraceStatus := TraceStatus.STARTED
  tags : List (String × String) := []
  logs : List (List (String × String)) := []
  error_details : Option (List (String × String)) := none
deriving DecidableEq

/-- The `Trace` dataclass. Note that it declares no `tags` field (unlike
`Span`), which is what makes the `tags=` keyword in `start_trace` invalid. -/
structure Trace where
  trace_id : String
  root_span_id : String
  server_name : String
  start_time : ℚ
  end_time : Option ℚ := none
  total_duration_ms : Option ℚ := none
  status : TraceStatus := TraceStatus.STARTED
  spans : List Span := []
deriving DecidableEq

/-- The TypeError CPython raises when `start_trace` calls the generated
`Trace.__init__` with the undeclared keyword argument `tags`. -/
def traceTagsTypeError : PyExc :=
  { ty := "TypeError", msg := "Trace init got an unexpected keyword argument tags" }

/-- The constructor call `Trace(trace_id=..., root_span_id=..., server_name=...,
start_time=..., tags=...)` as written in `start_trace`: since the dataclass
declares no `tags` field, the call raises TypeError. -/
def Trace.mkWithTags (_trace_id _root_span_id _server_name : String) (_start_time : ℚ)
    (_tags : List (String × String)) : Except PyExc Trace :=
  .error traceTagsTypeError

/-- Mutable state of an `MCPTracer`. -/
structure MCPTracer where
  server_name : String
  traces : List (String × Trace)
  spans : List (String × Span)
  active_traces : List (String × Trace)
  max_traces : Nat
deriving DecidableEq

namespace MCPTracer

/-- A fresh `MCPTracer` (all indices empty, `max_traces = 1000`). -/
def init (server_name : String) : MCPTracer :=
  { server_name := server_name, traces := [], spans := [], active_traces := [], max_traces := 1000 }

/-- `MCPTracer.start_trace`: choose the trace id (caller value when truthy,
else the generated one), construct the `Trace` (which raises TypeError, see
`Trace.mkWithTags`), register it in both indices and evict the oldest traces
from both when over capacity. `gen_trace_id` and `gen_root_span_id` stand for
the freshly generated uuids. -/
def start_trace (st : MCPTracer) (now : ℚ) (_trace_name : String) (trace_id? : Option String)
    (tags : Option (List (String × String))) (gen_trace_id gen_root_span_id : String) :
    Except PyExc (MCPTracer × String) :=
  let trace_id := if optStrTruthy trace_id? then trace_id?.getD "" else gen_trace_id
  let root_span_id := gen_root_span_id
  match Trace.mkWithTags trace_id root_span_id st.server_name now (tags.getD []) with
  | .error e => .error e
  | .ok trace =>
    let traces := dictInsert trace_id trace st.traces
    let active := dictInsert trace_id trace st.active_traces
    let (traces, active) :=
      if traces.length > st.max_traces then
        let oldIds := (traces.map Prod.fst).take (traces.length - st.max_traces)
        (traces.filter (fun kv => decide (kv.1 ∉ oldIds)),
         active.filter (fun kv => decide (kv.1 ∉ oldIds)))
      else (traces, active)
    .ok ({ st with traces := traces, active_traces := active }, trace_id)

/-- `MCPTracer.start_span`: auto-create the trace when the id is unknown (which
propagates the `start_trace` TypeError), then store the span in the span index
and append it to the trace's span list (the same object, aliased from both
trace indices). -/
def start_span (st : MCPTracer) (now : ℚ) (trace_id span_name tool_name : String)
    (parent_span_id : Option String) (tags : Option (List (String × String)))
    (gen_trace_id gen_root_span_id gen_span_id : String) :
    Except PyExc (MCPTracer × Span) :=
  let auto : Except PyExc MCPTracer :=
    if (dictLookup trace_id st.traces).isNone then
      (start_trace st now ("auto_" ++ span_name) (some trace_id) none gen_trace_id gen_root_span_id).map Prod.fst
    else .ok st
  match auto with
  | .error e => .error e
  | .ok st1 =>
    let span : Span :=
      { span_id := gen_span_id, trace_id := trace_id, parent_span_id := parent_span_id
        name := span_name, server_name := st1.server_name, tool_name := tool_name
        start_time := now, tags := tags.getD [] }
    let appendSpan := fun (kv : String × Trace) =>
      if kv.1 = trace_id then (kv.1, { kv.2 with spans := kv.2.spans ++ [span] }) else kv
    .ok ({ st1 with spans := dictInsert gen_span_id span st1.spans
                    traces := st1.traces.map appendSpan
                    active_traces := st1.active_traces.map appendSpan }, span)

/-- `MCPTracer.end_span`: unknown span ids return `None` and change nothing;
otherwise the span object is mutated in place (end time, status, error
details, duration computed from the recorded timestamps), which is visible
through the span index and through every trace span list that aliases it. -/
def end_span (st : MCPTracer) (now : ℚ) (span_id : String) (status : TraceStatus)
    (error_details : Option (List (String × String))) : MCPTracer × Option Span :=
  match dictLookup span_id st.spans with
  | none => (st, none)
  | some span =>
    let span' := { span with end_time := some now, status := status
                             error_details := error_details
                             duration_ms := some ((now - span.start_time) * 1000) }
    let upd := fun (kv : String × Trace) =>
      (kv.1, { kv.2 with spans := kv.2.spans.map (fun s => if s.span_id = span_id then span' else s) })
    ({ st with spans := dictInsert span_id span' st.spans
               traces := st.traces.map upd
               active_traces := st.active_traces.map upd }, some span')

/-- `MCPTracer.end_trace`: unknown trace ids return `None`; otherwise set end
time and status, compute the total duration, and drop the trace from the
active index (the mutation is visible from both indices, which alias). -/
def end_trace (st : MCPTracer) (now : ℚ) (trace_id : String) (status : TraceStatus) :
    MCPTracer × Option Trace :=
  match dictLookup trace_id st.traces with
  | none => (st, none)
  | some trace =>
    let trace' := { trace with end_time := some now, status := status
                               total_duration_ms := some ((now - trace.start_time) * 1000) }
    ({ st with traces := dictInsert trace_id trace' st.traces
               active_traces := (st.active_traces.map (fun kv => if kv.1 = trace_id then (kv.1, trace') else kv)).filter
                 (fun kv => decide (kv.1 ≠ trace_id)) }, some trace')

/-- Loop body of `search_traces`: the `match` flag starts true and each filter
can only clear it; filters guard themselves with Python truthiness. -/
def searchFlag (tool_name : Option String) (status : Option TraceStatus)
    (min_duration_ms max_duration_ms : Option ℚ) (trace : Trace) : Bool :=
  let m := true
  let m := if optStrTruthy tool_name then
      (if trace.spans.any (fun sp => decide (sp.tool_name = tool_name.getD "")) then m else false)
    else m
  let m := match status with
    | some s => if decide (trace.status = s) then m else false
    | none => m
  let m := if optRatTruthy min_duration_ms && optRatTruthy trace.total_duration_ms then
      (if decide (trace.total_duration_ms.getD 0 < min_duration_ms.getD 0) then false else m)
    else m
  let m := if optRatTruthy max_duration_ms && optRatTruthy trace.total_duration_ms then
      (if decide (max_duration_ms.getD 0 < trace.total_duration_ms.getD 0) then false else m)
    else m
  m

/-- `MCPTracer.search_traces`: collect, in storage order, the traces whose
`searchFlag` stays true (serialization through `asdict` is dropped; the trace
values themselves are returned). -/
def search_traces (st : MCPTracer) (tool_name : Option String) (status : Option TraceStatus)
    (min_duration_ms max_duration_ms : Option ℚ) : List Trace :=
  st.traces.foldl
    (fun results kv =>
      if searchFlag tool_name status min_duration_ms max_duration_ms kv.2
      then results ++ [kv.2] else results)
    []

end MCPTracer

/-- Mutable state of a `TracingMCPServer`. -/
structure TracingServerState where
  tracers : List (String × MCPTracer)
deriving DecidableEq

/-- Result of the `find_slow_traces` tool. -/
inductive FindSlowResult where
  | errNotFound (msg : String)
  | placeholder (server : String) (threshold_ms : ℚ) (message : String)
      (min_duration : ℚ) (max_results : Int)
deriving DecidableEq

/-- The `find_slow_traces` tool: after the registration check it ignores the
tracer's stored traces entirely and returns a fixed placeholder dict echoing
the criteria. -/
def find_slow_traces (st : TracingServerState) (server_name : String) (threshold_ms : ℚ)
    (limit : Int) : FindSlowResult :=
  match dictLookup server_name st.tracers with
  | none => .errNotFound ("Server " ++ server_name ++ " not found")
  | some _tracer =>
    .placeholder server_name threshold_ms "Trace search would return slow traces here" threshold_ms limit

/-! ### Integrated observability (`mcp_arena/observability/integrated.py`) -/

/-- Mutable state of an `IntegratedObservabilityServer`. -/
structure ObsState where
  server_name : String
  server_type : String
  logger : MCPLoggerState
  metrics : CollectorState
  tracer : MCPTracer
  current_trace_id : Option String
  current_span_id : Option String
deriving DecidableEq

/-- A fresh `IntegratedObservabilityServer`. -/
def ObsState.mk0 (server_name server_type session_id : String) : ObsState :=
  { server_name := server_name, server_type := server_type
    logger := MCPLogger.init server_name server_type session_id
    metrics := MCPMetricsCollector.init server_name
    tracer := MCPTracer.init server_name
    current_trace_id := none, current_span_id := none }

/-- One invocation of the wrapper produced by
`IntegratedObservabilityServer.instrument_tool`. The wrapped tool body is a
value of `Except PyExc ρ` (a result, or the exception it raises); `now_start`
and `now_end` are the clock readings around the tool execution; the `gen_*`
arguments are the uuids a successful `start_trace` or `start_span` would
consume. Faithful control flow: ensure a current trace (via `start_trace`),
open a span with the `tracer.span` context manager, log the start, count the
call, run the tool, then on success record the timer, log completion and end
the span SUCCESS; on failure count the error, log the ERROR entry with the
failure type and message, end the span ERROR with the message, and re-raise.
A propagating exception leaves all mutations made before it in place. -/
def instrument_tool {ρ : Type} (st : ObsState) (gen_trace_id gen_root_span_id gen_span_id : String)
    (now_start now_end : ℚ) (tool_name : String) (tool_func : Except PyExc ρ) :
    ObsState × Except PyExc ρ :=
  let ensured : Except PyExc ObsState :=
    if optStrTruthy st.current_trace_id then .ok st
    else
      match MCPTracer.start_trace st.tracer now_start ("tool_call_" ++ tool_name) none none
          gen_trace_id gen_root_span_id with
      | .error e => .error e
      | .ok (tr, tid) => .ok { st with tracer := tr, current_trace_id := some tid }
  match ensured with
  | .error e => (st, .error e)
  | .ok st1 =>
    match MCPTracer.start_span st1.tracer now_start (st1.current_trace_id.getD "")
        ("call_" ++ tool_name) tool_name st1.current_span_id none
        gen_trace_id gen_root_span_id gen_span_id with
    | .error e => (st1, .error e)
    | .ok (tr2, span) =>
      let st2 := { st1 with tracer := tr2, current_span_id := some span.span_id }
      let (lg1, _) := MCPLogger.log st2.logger now_start LogLevel.INFO
        ("Starting tool: " ++ tool_name) (some tool_name) none st2.current_trace_id none none none
      let (mc1, _) := MCPMetricsCollector.increment_counter st2.metrics now_start
        ("tool_" ++ tool_name ++ "_calls") 1 (some tool_name) none none
      let st3 := { st2 with logger := lg1, metrics := mc1 }
      match tool_func with
      | .ok result =>
        let duration_ms := (now_end - now_start) * 1000
        let (mc2, _) := MCPMetricsCollector.record_timer st3.metrics now_end
          ("tool_" ++ tool_name ++ "_duration") duration_ms (some tool_name) none none
        let (lg2, _) := MCPLogger.log st3.logger now_end LogLevel.INFO
          ("Tool " ++ tool_name ++ " completed successfully in " ++ fmtQ duration_ms ++ "ms")
          (some tool_name) none st3.current_trace_id (some duration_ms) none none
        let (tr3, _) := MCPTracer.end_span st3.tracer now_end span.span_id TraceStatus.SUCCESS none
        ({ st3 with logger := lg2, metrics := mc2, tracer := tr3 }, .ok result)
      | .error e =>
        let duration_ms := (now_end - now_start) * 1000
        let (mc2, _) := MCPMetricsCollector.increment_counter st3.metrics now_end
          ("tool_" ++ tool_name ++ "_errors") 1 (some tool_name) none none
        let (lg2, _) := MCPLogger.log st3.logger now_end LogLevel.ERROR
          ("Tool " ++ tool_name ++ " failed after " ++ fmtQ duration_ms ++ "ms: " ++ e.msg)
          (some tool_name) none st3.current_trace_id (some duration_ms)
          (some [("error", e.msg), ("type", e.ty)]) none
        let (tr3, _) := MCPTracer.end_span st3.tracer now_end span.span_id TraceStatus.ERROR
          (some [("error", e.msg)])
        ({ st3 with logger := lg2, metrics := mc2, tracer := tr3 }, .error e)

/-! ### Concrete states used by witnesses and counterexamples -/

/-- A fresh logger with a small capacity, to exercise buffer eviction. -/
def exLogger : MCPLoggerState :=
  { server_name := "srv", server_type := "generic", session_id := "session_1"
    log_buffer := [], max_buffer_size := 2 }

/-- Three log calls, one more than `exLogger`'s capacity. -/
def exLogCalls : List MCPLogger.LogCall :=
  [ { now := 0, level := LogLevel.INFO, message := "a" },
    { now := 1, level := LogLevel.ERROR, message := "b" },
    { now := 2, level := LogLevel.INFO, message := "c" } ]

/-- A metrics server with one registered collector, as `register_metrics_collector`
leaves it. -/
def exMetricsServer : MetricsServerState :=
  { collectors := [("s", MCPMetricsCollector.init "s")]
    metrics_history := [("s", [])] }

/-- A collector state reached by recording the counter "c" twice (values 2 and
3, five seconds apart): two buffered samples, running total 5. -/
def exCollector : CollectorState :=
  (MCPMetricsCollector.increment_counter
    (MCPMetricsCollector.increment_counter (MCPMetricsCollector.init "s") 0 "c" 2 none none none).1
    5 "c" 3 none none none).1

/-- A started span as `start_span` would store it. -/
def exSpan : Span :=
  { span_id := "sp1", trace_id := "t1", parent_span_id := none, name := "call_x"
    server_name := "s", tool_name := "x", start_time := 3 }

/-- A tracer whose span index holds `exSpan` (states with stored spans are
reachable only for the intended, non-raising `start_trace`; `end_span` is a
total function of the state either way). -/
def exTracer : MCPTracer :=
  { server_name := "s", traces := [], spans := [("sp1", exSpan)]
    active_traces := [], max_traces := 1000 }

/-- A completed trace whose total duration exceeds 1000 ms. -/
def exSlowTrace : Trace :=
  { trace_id := "t1", root_span_id := "r1", server_name := "s", start_time := 0
    end_time := some 2, total_duration_ms := some 2000
    status := TraceStatus.SUCCESS, spans := [] }

/-- A tracing server with one registered tracer that stores `exSlowTrace`. -/
def exTracingServer : TracingServerState :=
  { tracers := [("s", { server_name := "s", traces := [("t1", exSlowTrace)]
                        spans := [], active_traces := [], max_traces := 1000 })] }

/-- Spec-side operation clause: when an operation filter is given, the trace
must contain at least one span whose operation (tool name) equals it. -/
def specToolClause (tool_name : Option String) (t : Trace) : Bool :=
  match tool_name with
  | some x => decide (∃ sp ∈ t.spans, sp.tool_name = x)
  | none => true

/-- Spec-side status clause: when a status filter is given, the trace's
status must equal it. -/
def specStatusClause (status : Option TraceStatus) (t : Trace) : Bool :=
  match status with
  | some s => decide (t.status = s)
  | none => true

/-- Spec-side minimum-duration clause (amended form): the bound is compared
only when it is nonzero and the trace has a nonzero computed total duration. -/
def specMinClause (mn dur : Option ℚ) : Bool :=
  match mn, dur with
  | some m, some d => if m = 0 ∨ d = 0 then true else decide (m ≤ d)
  | _, _ => true

/-- Spec-side maximum-duration clause (amended form), symmetric to
`specMinClause`. -/
def specMaxClause (mx dur : Option ℚ) : Bool :=
  match mx, dur with
  | some m, some d => if m = 0 ∨ d = 0 then true else decide (d ≤ m)
  | _, _ => true

/-- The specification's reading of the `search_traces` match condition, in
its amended form: a trace matches when it contains a span with the requested
operation (if that filter is given), its status equals the status filter (if
given), and each duration bound is respected — the bounds being compared only
when the bound itself is nonzero and the trace has a nonzero computed total
duration (Python truthiness). -/
def specTraceMatches (tool_name : Option String) (status : Option TraceStatus)
    (min_duration_ms max_duration_ms : Option ℚ) (t : Trace) : Bool :=
  specToolClause tool_name t && specStatusClause status t &&
    specMinClause min_duration_ms t.total_duration_ms &&
    specMaxClause max_duration_ms t.total_duration_ms

/-- A trace whose computed total duration is zero (start and end coincide at
clock resolution), stored in `cexTracer7`. -/
def cexTrace7 : Trace :=
  { trace_id := "t0", root_span_id := "r0", server_name := "s", start_time := 0
    end_time := some 0, total_duration_ms := some 0
    status := TraceStatus.SUCCESS, spans := [] }

/-- A tracer storing only `cexTrace7`. -/
def cexTracer7 : MCPTracer :=
  { server_name := "s", traces := [("t0", cexTrace7)], spans := []
    active_traces := [], max_traces := 1000 }

/-- A fresh integrated observability server. -/
def exObs : ObsState := ObsState.mk0 "srv" "generic" "session_1"

/-! ### Shared helper lemmas -/

theorem dictLookup_dictInsert_self {α : Type} (k : String) (v : α) (l : List (String × α)) :
    dictLookup k (dictInsert k v l) = some v := by
  induction l with
  | nil => simp [dictInsert, dictLookup]
  | cons kv rest ih =>
    obtain ⟨k', v'⟩ := kv
    by_cases h : k = k' <;> simp [dictInsert, dictLookup, h, ih]

theorem pySliceFrom_sublist {α : Type} (l : List α) (i : Int) :
    (pySliceFrom l i).Sublist l := by
  unfold pySliceFrom
  split <;> exact List.drop_sublist _ _

theorem MCPLogger.logBufferStep_eq (M : Nat) (buf : List LogEntry) (e : LogEntry) :
    MCPLogger.logBufferStep M buf e = (buf ++ [e]).drop (buf.length + 1 - M) := by
  show (if (buf ++ [e]).length > M then (buf ++ [e]).drop ((buf ++ [e]).length - M)
        else (buf ++ [e])) = (buf ++ [e]).drop (buf.length + 1 - M)
  have hlen : (buf ++ [e]).length = buf.length + 1 := by simp
  by_cases h : (buf ++ [e]).length > M
  · rw [if_pos h, hlen]
  · rw [if_neg h]
    have h0 : buf.length + 1 - M = 0 := by omega
    rw [h0, List.drop_zero]

theorem MCPLogger.foldl_logBufferStep (M : Nat) (es buf : List LogEntry)
    (hbuf : buf.length ≤ M) :
    es.foldl (MCPLogger.logBufferStep M) buf = (buf ++ es).drop (buf.length + es.length - M) := by
  induction es generalizing buf with
  | nil => simp [Nat.sub_eq_zero_of_le hbuf]
  | cons e rest ih =>
    have hxlen : (buf ++ [e]).length = buf.length + 1 := by simp
    have hk : buf.length + 1 - M ≤ (buf ++ [e]).length := by rw [hxlen]; omega
    have hstep := MCPLogger.logBufferStep_eq M buf e
    have hlen : (MCPLogger.logBufferStep M buf e).length ≤ M := by
      rw [hstep, List.length_drop, hxlen]; omega
    rw [List.foldl_cons, ih (MCPLogger.logBufferStep M buf e) hlen, hstep, List.length_drop,
      ← List.drop_append_of_le_length hk, List.drop_drop, List.append_assoc]
    simp only [List.singleton_append, List.length_append, List.length_cons]
    congr 1
    simp only [List.length_append, List.length_cons, List.length_nil]
    omega

theorem MCPLogger.foldl_applyLogCall_buffer (st : MCPLoggerState) (calls : List MCPLogger.LogCall) :
    (calls.foldl MCPLogger.applyLogCall st).log_buffer =
      (calls.map (MCPLogger.mkEntry st)).foldl
        (MCPLogger.logBufferStep st.max_buffer_size) st.log_buffer := by
  induction calls generalizing st with
  | nil => rfl
  | cons c rest ih =>
    rw [List.foldl_cons, ih (MCPLogger.applyLogCall st c)]
    rfl

theorem MCPLogger.foldl_applyLogCall_max (st : MCPLoggerState) (calls : List MCPLogger.LogCall) :
    (calls.foldl MCPLogger.applyLogCall st).max_buffer_size = st.max_buffer_size := by
  induction calls generalizing st with
  | nil => rfl
  | cons c rest ih =>
    rw [List.foldl_cons, ih (MCPLogger.applyLogCall st c)]
    rfl

theorem MCPLogger.get_logs_sublist (st : MCPLoggerState) (level : Option LogLevel)
    (tool_name : Option String) (limit : Int) :
    (MCPLogger.get_logs st level tool_name limit).Sublist st.log_buffer := by
  have h1 : ∀ fl : List LogEntry,
      (if optStrTruthy tool_name then fl.filter (fun e => decide (e.tool_name = tool_name))
       else fl).Sublist fl := by
    intro fl
    split
    · exact List.filter_sublist _
    · exact List.Sublist.refl _
  unfold MCPLogger.get_logs
  cases level with
  | none => exact (pySliceFrom_sublist _ _).trans ((h1 _).trans (List.Sublist.refl _))
  | some lv => exact (pySliceFrom_sublist _ _).trans ((h1 _).trans (List.filter_sublist _))

/-! ### Claim theorems -/

/-- C2: for every sequence of `MCPLogger.log` calls on a fresh logger with
buffer capacity C, the buffer afterwards holds exactly `min N C` entries,
namely the most recently created ones in their original insertion order, and
`get_logs` returns a sublist of the buffer: the pure query mutates nothing
and reorders no entry. -/
theorem c2_log_buffer_bound (st0 : MCPLoggerState) (calls : List MCPLogger.LogCall)
    (level : Option LogLevel) (tool_name : Option String) (limit : Int)
    (h0 : st0.log_buffer = []) :
    (calls.foldl MCPLogger.applyLogCall st0).log_buffer.length =
      min calls.length st0.max_buffer_size ∧
    (calls.foldl MCPLogger.applyLogCall st0).log_buffer =
      (calls.map (MCPLogger.mkEntry st0)).drop (calls.length - st0.max_buffer_size) ∧
    (MCPLogger.get_logs (calls.foldl MCPLogger.applyLogCall st0) level tool_name limit).Sublist
      (calls.foldl MCPLogger.applyLogCall st0).log_buffer := by
  have hbuf : (calls.foldl MCPLogger.applyLogCall st0).log_buffer =
      (calls.map (MCPLogger.mkEntry st0)).drop (calls.length - st0.max_buffer_size) := by
    rw [MCPLogger.foldl_applyLogCall_buffer, h0,
      MCPLogger.foldl_logBufferStep _ _ _ (by simp)]
    simp
  refine ⟨?_, hbuf, MCPLogger.get_logs_sublist _ _ _ _⟩
  rw [hbuf, List.length_drop, List.length_map]
  omega

/-- Witness for C2 at a concrete logger of capacity 2 and three log calls. -/
theorem c2_witness :
    exLogger.log_buffer = [] ∧
    (exLogCalls.foldl MCPLogger.applyLogCall exLogger).log_buffer.length =
      min exLogCalls.length exLogger.max_buffer_size ∧
    (exLogCalls.foldl MCPLogger.applyLogCall exLogger).log_buffer =
      (exLogCalls.map (MCPLogger.mkEntry exLogger)).drop
        (exLogCalls.length - exLogger.max_buffer_size) :=
  ⟨rfl, (c2_log_buffer_bound exLogger exLogCalls none none 100 rfl).1,
    (c2_log_buffer_bound exLogger exLogCalls none none 100 rfl).2.1⟩

/-- C5: counter records add to a running total keyed by name, gauge records
overwrite keeping only the last value: two `increment_counter` calls on a
previously untracked name leave `counters[name] = v1 + v2`, and two
`set_gauge` calls leave `gauges[name] = v2`. -/
theorem c5_counter_adds_gauge_overwrites (st st' : CollectorState) (name : String)
    (v1 v2 : ℚ) (t1 t2 t3 t4 : ℚ) (tn1 tn2 tn3 tn4 : Option String)
    (tg1 tg2 tg3 tg4 md1 md2 md3 md4 : Option (List (String × String)))
    (h : dictLookup name st.counters = none) :
    dictLookup name ((MCPMetricsCollector.increment_counter
        (MCPMetricsCollector.increment_counter st t1 name v1 tn1 tg1 md1).1
        t2 name v2 tn2 tg2 md2).1).counters = some (v1 + v2) ∧
    dictLookup name ((MCPMetricsCollector.set_gauge
        (MCPMetricsCollector.set_gauge st' t3 name v1 tn3 tg3 md3).1
        t4 name v2 tn4 tg4 md4).1).gauges = some v2 := by
  constructor
  · simp [MCPMetricsCollector.increment_counter, MCPMetricsCollector.record, h,
      dictLookup_dictInsert_self]
  · simp [MCPMetricsCollector.set_gauge, MCPMetricsCollector.record,
      dictLookup_dictInsert_self]

/-- Witness for C5 on a fresh collector: 2 then 3 gives a counter total of 5;
gauge set to 2 then 3 reads 3. -/
theorem c5_witness :
    dictLookup "c" (MCPMetricsCollector.init "s").counters = none ∧
    dictLookup "c" ((MCPMetricsCollector.increment_counter
        (MCPMetricsCollector.increment_counter (MCPMetricsCollector.init "s") 0 "c" 2 none none none).1
        5 "c" 3 none none none).1).counters = some (2 + 3) ∧
    dictLookup "c" ((MCPMetricsCollector.set_gauge
        (MCPMetricsCollector.set_gauge (MCPMetricsCollector.init "s") 0 "c" 2 none none none).1
        5 "c" 3 none none none).1).gauges = some 3 :=
  ⟨rfl,
    (c5_counter_adds_gauge_overwrites (MCPMetricsCollector.init "s") (MCPMetricsCollector.init "s")
      "c" 2 3 0 5 0 5 none none none none none none none none none none none none rfl).1,
    (c5_counter_adds_gauge_overwrites (MCPMetricsCollector.init "s") (MCPMetricsCollector.init "s")
      "c" 2 3 0 5 0 5 none none none none none none none none none none none none rfl).2⟩

/-- C8: recording through `record_server_metric` with an unknown metric kind
fails with the ValueError from the `MetricType` constructor, and the failure
happens before any store mutation: the returned state is exactly the input
state, so the collector buffers, counters, gauges and the server history are
all unchanged. -/
theorem c8_unknown_metric_type (st : MetricsServerState) (now : ℚ)
    (server ty name : String) (value : ℚ) (tool : Option String)
    (tags : Option (List (String × String)))
    (hreg : (dictLookup server st.collectors).isSome)
    (hty : MetricType.ofString ty = none) :
    record_server_metric st now server ty name value tool tags =
      (st, RecordMetricResult.exn (invalidMetricTypeError ty)) := by
  obtain ⟨c, hc⟩ := Option.isSome_iff_exists.mp hreg
  simp [record_server_metric, hc, hty]

/-- Witness for C8: a registered server and the unknown kind "bogus". -/
theorem c8_witness :
    (dictLookup "s" exMetricsServer.collectors).isSome ∧
    MetricType.ofString "bogus" = none ∧
    record_server_metric exMetricsServer 0 "s" "bogus" "m" 1 none none =
      (exMetricsServer, RecordMetricResult.exn (invalidMetricTypeError "bogus")) :=
  ⟨by decide, rfl,
    c8_unknown_metric_type exMetricsServer 0 "s" "bogus" "m" 1 none none (by decide) rfl⟩

theorem dictLookup_eq_none_of_not_mem {α : Type} (k : String) (l : List (String × α))
    (h : k ∉ l.map Prod.fst) : dictLookup k l = none := by
  induction l with
  | nil => rfl
  | cons kv rest ih =>
    obtain ⟨k', v⟩ := kv
    simp only [List.map_cons, List.mem_cons] at h
    push_neg at h
    simp [dictLookup, h.1, ih h.2]

theorem keys_filterMap_subset (l : List (String × ℚ)) (g : String → ℚ → Option ℚ)
    (k : String)
    (hk : k ∈ (l.filterMap (fun kv => (g kv.1 kv.2).map (fun r => (kv.1, r)))).map Prod.fst) :
    k ∈ l.map Prod.fst := by
  simp only [List.mem_map, List.mem_filterMap] at hk ⊢
  obtain ⟨p, ⟨kv, hkv, hg⟩, hpk⟩ := hk
  cases hgv : g kv.1 kv.2 with
  | none => rw [hgv] at hg; simp at hg
  | some r =>
    rw [hgv] at hg
    simp only [Option.map_some', Option.some.injEq] at hg
    exact ⟨kv, hkv, by rw [← hpk, ← hg]⟩

theorem dictLookup_filterMap_rate (l : List (String × ℚ)) (g : String → ℚ → Option ℚ)
    (k : String) (hn : (l.map Prod.fst).Nodup) :
    dictLookup k (l.filterMap (fun kv => (g kv.1 kv.2).map (fun r => (kv.1, r)))) =
      (dictLookup k l).bind (g k) := by
  induction l with
  | nil => rfl
  | cons kv rest ih =>
    obtain ⟨k', v⟩ := kv
    simp only [List.map_cons, List.nodup_cons] at hn
    by_cases hek : k = k'
    · subst hek
      cases hg : g k v with
      | some r => simp [List.filterMap_cons, hg, dictLookup]
      | none =>
        have hnone : dictLookup k
            (rest.filterMap (fun kv => (g kv.1 kv.2).map (fun r => (kv.1, r)))) = none :=
          dictLookup_eq_none_of_not_mem _ _ (fun hmem => hn.1 (keys_filterMap_subset rest g k hmem))
        simp [List.filterMap_cons, hg, hnone, dictLookup]
    · cases hg : g k' v with
      | some r => simp [List.filterMap_cons, hg, dictLookup, hek, ih hn.2]
      | none => simp [List.filterMap_cons, hg, dictLookup, hek, ih hn.2]

theorem MCPMetricsCollector.rateFor_spec (st : CollectorState) (name : String) (total : ℚ) :
    ((MCPMetricsCollector.rateFor st name total).isSome ↔
      2 ≤ (MCPMetricsCollector.counterSamples st name).length ∧
        0 < MCPMetricsCollector.bufElapsed (MCPMetricsCollector.counterSamples st name)) ∧
    ∀ r, MCPMetricsCollector.rateFor st name total = some r →
      r = total / MCPMetricsCollector.bufElapsed (MCPMetricsCollector.counterSamples st name) := by
  have key : ∀ (cms : List Metric),
      ((if 1 < cms.length then
          match cms.head?, cms.getLast? with
          | some first, some last =>
            if 0 < last.timestamp - first.timestamp
            then some (total / (last.timestamp - first.timestamp)) else none
          | _, _ => none
        else none).isSome ↔ 2 ≤ cms.length ∧ 0 < MCPMetricsCollector.bufElapsed cms) ∧
      ∀ r, (if 1 < cms.length then
          match cms.head?, cms.getLast? with
          | some first, some last =>
            if 0 < last.timestamp - first.timestamp
            then some (total / (last.timestamp - first.timestamp)) else none
          | _, _ => none
        else none) = some r → r = total / MCPMetricsCollector.bufElapsed cms := by
    intro cms
    by_cases hlen : 1 < cms.length
    · have hne : cms ≠ [] := by
        intro h
        rw [h] at hlen
        simp at hlen
      obtain ⟨f, hf⟩ : ∃ f, cms.head? = some f := by
        cases hh : cms.head? with
        | none => exact absurd (List.head?_eq_none_iff.mp hh) hne
        | some f => exact ⟨f, rfl⟩
      obtain ⟨l, hl⟩ : ∃ l, cms.getLast? = some l := by
        cases hh : cms.getLast? with
        | none => exact absurd (List.getLast?_eq_none_iff.mp hh) hne
        | some l => exact ⟨l, rfl⟩
      have helap : MCPMetricsCollector.bufElapsed cms = l.timestamp - f.timestamp := by
        simp [MCPMetricsCollector.bufElapsed, hf, hl]
      rw [if_pos hlen, hf, hl, helap]
      dsimp only
      by_cases hd : 0 < l.timestamp - f.timestamp
      · rw [if_pos hd]
        constructor
        · simp only [Option.isSome_some, true_iff]
          exact ⟨by omega, hd⟩
        · intro r hr
          simpa using hr.symm
      · rw [if_neg hd]
        constructor
        · simp only [Option.isSome_none, Bool.false_eq_true, false_iff]
          rintro ⟨-, h0⟩
          exact hd h0
        · intro r hr
          simp at hr
    · rw [if_neg hlen]
      constructor
      · simp only [Option.isSome_none, Bool.false_eq_true, false_iff]
        rintro ⟨h2, -⟩
        omega
      · intro r hr
        simp at hr
  exact key (MCPMetricsCollector.counterSamples st name)

/-- C6: `get_metrics_summary` reports a rate for a counter name iff at least
two COUNTER samples with that name sit in the bounded buffer and the elapsed
time between the first and last of them is strictly positive; the reported
rate is the running total divided by that elapsed time, and otherwise no
entry for the name appears (absence, not zero). -/
theorem c6_counter_rate_iff (st : CollectorState) (name : String)
    (hwf : MCPMetricsCollector.WF st) :
    ((dictLookup name (MCPMetricsCollector.get_metrics_summary st).counter_rates).isSome ↔
      2 ≤ (MCPMetricsCollector.counterSamples st name).length ∧
        0 < MCPMetricsCollector.bufElapsed (MCPMetricsCollector.counterSamples st name)) ∧
    ∀ r, dictLookup name (MCPMetricsCollector.get_metrics_summary st).counter_rates = some r →
      ∃ total, dictLookup name st.counters = some total ∧
        r = total / MCPMetricsCollector.bufElapsed (MCPMetricsCollector.counterSamples st name) := by
  have hlook : dictLookup name (MCPMetricsCollector.get_metrics_summary st).counter_rates =
      (dictLookup name st.counters).bind (fun total => MCPMetricsCollector.rateFor st name total) :=
    dictLookup_filterMap_rate st.counters (MCPMetricsCollector.rateFor st) name hwf.1
  rw [hlook]
  cases hc : dictLookup name st.counters with
  | some total =>
    rw [Option.some_bind]
    refine ⟨(MCPMetricsCollector.rateFor_spec st name total).1, ?_⟩
    intro r hr
    exact ⟨total, rfl, (MCPMetricsCollector.rateFor_spec st name total).2 r hr⟩
  | none =>
    rw [Option.none_bind]
    constructor
    · constructor
      · intro h
        simp at h
      · rintro ⟨h2, -⟩
        exfalso
        have hne : MCPMetricsCollector.counterSamples st name ≠ [] := by
          intro h
          rw [h] at h2
          simp at h2
        obtain ⟨m, hm⟩ := List.exists_mem_of_ne_nil _ hne
        have hmem := (List.mem_filter.mp hm)
        have hprops := of_decide_eq_true hmem.2
        have hsome := hwf.2 m hmem.1 hprops.2
        rw [hprops.1, hc] at hsome
        simp at hsome
    · intro r hr
      simp at hr

/-- Witness for C6: the collector that recorded "c" twice (5 seconds apart)
satisfies the invariant and reports a rate for "c". -/
theorem c6_witness :
    MCPMetricsCollector.WF exCollector ∧
    ((dictLookup "c" (MCPMetricsCollector.get_metrics_summary exCollector).counter_rates).isSome ↔
      2 ≤ (MCPMetricsCollector.counterSamples exCollector "c").length ∧
        0 < MCPMetricsCollector.bufElapsed (MCPMetricsCollector.counterSamples exCollector "c")) :=
  ⟨by decide, (c6_counter_rate_iff exCollector "c" (by decide)).1⟩

/-- C10: every `start_trace` call raises the TypeError coming from the
undeclared `tags` keyword of the `Trace` dataclass before any state mutation
(the error result carries no successor state, so neither trace index gains an
entry), and `start_span` on an unknown trace id propagates the same error
from its auto-create path without storing a span. -/
theorem c10_start_trace_always_raises :
    (∀ (st : MCPTracer) (now : ℚ) (name : String) (tid : Option String)
        (tags : Option (List (String × String))) (g1 g2 : String),
      MCPTracer.start_trace st now name tid tags g1 g2 = Except.error traceTagsTypeError) ∧
    (∀ (st : MCPTracer) (now : ℚ) (tid sn tn : String) (p : Option String)
        (tags : Option (List (String × String))) (g1 g2 g3 : String),
      dictLookup tid st.traces = none →
      MCPTracer.start_span st now tid sn tn p tags g1 g2 g3 = Except.error traceTagsTypeError) := by
  have h1 : ∀ (st : MCPTracer) (now : ℚ) (name : String) (tid : Option String)
      (tags : Option (List (String × String))) (g1 g2 : String),
      MCPTracer.start_trace st now name tid tags g1 g2 = Except.error traceTagsTypeError := by
    intro st now name tid tags g1 g2
    rfl
  refine ⟨h1, ?_⟩
  intro st now tid sn tn p tags g1 g2 g3 h
  unfold MCPTracer.start_span
  rw [h]
  simp [h1, Except.map]

/-- Witness for C10 on a fresh tracer and an unknown trace id. -/
theorem c10_witness :
    dictLookup "t1" (MCPTracer.init "s").traces = none ∧
    MCPTracer.start_span (MCPTracer.init "s") 0 "t1" "sp" "tool" none none "g1" "g2" "g3" =
      Except.error traceTagsTypeError :=
  ⟨rfl, c10_start_trace_always_raises.2 (MCPTracer.init "s") 0 "t1" "sp" "tool"
    none none "g1" "g2" "g3" rfl⟩

/-- C3 fails on the code: instead of registering the trace and evicting old
ones, the very first `start_trace` call on a fresh tracer raises TypeError
(the `Trace` dataclass declares no `tags` field), so no trace is ever stored
in either index. -/
theorem c3_start_trace_type_error :
    MCPTracer.start_trace (MCPTracer.init "s") 0 "t" (some "id1") none "gid" "gsid" =
      Except.error traceTagsTypeError := rfl

/-- C4: ending a stored span returns it with end time, the given terminal
status, the supplied error details and duration `(end - start) * 1000`, and
stores that updated span (non-negative whenever the clock did not go
backwards); once ended with a terminal status the stored span is no longer
STARTED, so the STARTED-to-terminal transition cannot repeat; ending an
unknown span id returns `none` and leaves the state untouched. -/
theorem c4_end_span (st : MCPTracer) (now : ℚ) (sid : String) (status : TraceStatus)
    (ed : Option (List (String × String))) :
    (dictLookup sid st.spans = none →
      MCPTracer.end_span st now sid status ed = (st, none)) ∧
    (∀ sp, dictLookup sid st.spans = some sp →
      (MCPTracer.end_span st now sid status ed).2 =
        some { sp with end_time := some now, status := status, error_details := ed
                       duration_ms := some ((now - sp.start_time) * 1000) } ∧
      dictLookup sid (MCPTracer.end_span st now sid status ed).1.spans =
        some { sp with end_time := some now, status := status, error_details := ed
                       duration_ms := some ((now - sp.start_time) * 1000) } ∧
      (sp.start_time ≤ now → 0 ≤ (now - sp.start_time) * 1000) ∧
      (status ≠ TraceStatus.STARTED →
        ∀ sp2, dictLookup sid (MCPTracer.end_span st now sid status ed).1.spans = some sp2 →
          sp2.status ≠ TraceStatus.STARTED)) := by
  constructor
  · intro h
    unfold MCPTracer.end_span
    rw [h]
  · intro sp h
    unfold MCPTracer.end_span
    rw [h]
    dsimp only
    refine ⟨rfl, dictLookup_dictInsert_self _ _ _, ?_, ?_⟩
    · intro hle
      have h0 : 0 ≤ now - sp.start_time := by linarith
      nlinarith
    · intro hstatus sp2 h2
      rw [dictLookup_dictInsert_self] at h2
      injection h2 with h2
      rw [← h2]
      simpa using hstatus

/-- Witness for C4 at a concrete tracer holding one started span. -/
theorem c4_witness :
    dictLookup "sp1" exTracer.spans = some exSpan ∧
    (MCPTracer.end_span exTracer 7 "sp1" TraceStatus.SUCCESS none).2 =
      some { exSpan with end_time := some 7, status := TraceStatus.SUCCESS
                         error_details := none
                         duration_ms := some ((7 - exSpan.start_time) * 1000) } :=
  ⟨rfl, ((c4_end_span exTracer 7 "sp1" TraceStatus.SUCCESS none).2 exSpan rfl).1⟩

/-- C9 fails on the code: even for a registered server whose tracer stores a
trace over the threshold, `find_slow_traces` returns only the fixed
placeholder dict and never any trace. -/
theorem c9_find_slow_traces_placeholder :
    (∃ kv ∈ exTracingServer.tracers, ∃ tv ∈ kv.2.traces,
      1000 < tv.2.total_duration_ms.getD 0) ∧
    find_slow_traces exTracingServer "s" 1000 10 =
      FindSlowResult.placeholder "s" 1000 "Trace search would return slow traces here" 1000 10 :=
  ⟨by decide, rfl⟩

set_option maxHeartbeats 1000000

theorem MCPTracer.searchFlag_eq_spec (tn : Option String) (stq : Option TraceStatus)
    (mn mx : Option ℚ) (t : Trace) (h : tn ≠ some "") :
    MCPTracer.searchFlag tn stq mn mx t = specTraceMatches tn stq mn mx t := by
  rcases tn with _ | x
  · rcases stq with _ | s <;> rcases mn with _ | m <;> rcases mx with _ | M <;>
      rcases hd : t.total_duration_ms with _ | d <;>
        simp only [MCPTracer.searchFlag, specTraceMatches, specToolClause, specStatusClause,
          specMinClause, specMaxClause, optStrTruthy, optRatTruthy, hd,
          Option.getD_some, Option.getD_none, Bool.false_and, Bool.and_false, Bool.true_and,
          Bool.and_true, if_false, if_true, Bool.false_eq_true] <;>
        split_ifs <;>
        simp_all [not_lt, not_le, List.any_eq_true]
  · have hx : x ≠ "" := fun he => h (by rw [he])
    rcases stq with _ | s <;> rcases mn with _ | m <;> rcases mx with _ | M <;>
      rcases hd : t.total_duration_ms with _ | d <;>
        simp only [MCPTracer.searchFlag, specTraceMatches, specToolClause, specStatusClause,
          specMinClause, specMaxClause, optStrTruthy, optRatTruthy, hd, hx,
          Option.getD_some, Option.getD_none, Bool.false_and, Bool.and_false, Bool.true_and,
          Bool.and_true, if_false, if_true, Bool.false_eq_true, decide_not] <;>
        split_ifs <;>
        simp_all [not_lt, not_le, List.any_eq_true]

theorem MCPTracer.search_traces_eq_filter (st : MCPTracer) (tn : Option String)
    (stq : Option TraceStatus) (mn mx : Option ℚ) :
    MCPTracer.search_traces st tn stq mn mx =
      (st.traces.map Prod.snd).filter (MCPTracer.searchFlag tn stq mn mx) := by
  have key : ∀ (l : List (String × Trace)) (acc : List Trace),
      l.foldl (fun results kv =>
        if MCPTracer.searchFlag tn stq mn mx kv.2 then results ++ [kv.2] else results) acc =
        acc ++ (l.map Prod.snd).filter (MCPTracer.searchFlag tn stq mn mx) := by
    intro l
    induction l with
    | nil => intro acc; simp
    | cons kv rest ih =>
      intro acc
      rw [List.foldl_cons]
      by_cases hp : MCPTracer.searchFlag tn stq mn mx kv.2
      · rw [if_pos hp, ih]
        simp [List.filter_cons, hp]
      · rw [if_neg hp, ih]
        simp [List.filter_cons, hp]
  unfold MCPTracer.search_traces
  rw [key st.traces []]
  simp

/-- Counterexample to C7 as stated: `cexTrace7` has a computed total duration
(0 ms) that is strictly below the given min bound of 5 ms, so under the
claim's reading ("bounds compared only when the trace has a computed total
duration") it must be excluded, yet `search_traces` returns it: Python
truthiness also skips the comparison when the computed duration is zero. -/
theorem c7_counterexample :
    cexTrace7.total_duration_ms = some 0 ∧ (0 : ℚ) < 5 ∧
    cexTrace7 ∈ MCPTracer.search_traces cexTracer7 none none (some 5) none := by
  refine ⟨rfl, by norm_num, ?_⟩
  decide

/-- C7 (amended): for every tracer state, `search_traces` returns exactly the
stored traces (in storage order) satisfying the spec predicate in which the
duration bounds are compared only when the bound is nonzero and the trace has
a nonzero computed total duration; with only a (non-empty) operation filter
this is precisely the set of traces containing a span with that operation. -/
theorem c7_search_traces_amended (st : MCPTracer) (tn : Option String)
    (stq : Option TraceStatus) (mn mx : Option ℚ) (h : tn ≠ some "") :
    MCPTracer.search_traces st tn stq mn mx =
      (st.traces.map Prod.snd).filter (specTraceMatches tn stq mn mx) := by
  rw [MCPTracer.search_traces_eq_filter]
  exact List.filter_congr (fun t _ => MCPTracer.searchFlag_eq_spec tn stq mn mx t h)

/-- Witness for C7 (amended) on `cexTracer7` with an operation filter. -/
theorem c7_witness :
    (some "x" : Option String) ≠ some "" ∧
    MCPTracer.search_traces cexTracer7 (some "x") none none none =
      (cexTracer7.traces.map Prod.snd).filter (specTraceMatches (some "x") none none none) :=
  ⟨by decide, c7_search_traces_amended cexTracer7 (some "x") none none none (by decide)⟩

/-- C1 fails on the code: the first invocation of an instrumented tool enters
the `start_trace` path (no current trace id), which raises the `Trace`
dataclass TypeError before the wrapped function ever runs. The caller
receives that TypeError — not the wrapped function's own ValueError — and
logger buffer, error counter and span store are all left untouched, contrary
to the claimed error-path behaviour. -/
theorem c1_instrument_tool_type_error :
    instrument_tool exObs "gt" "gr" "gs" 0 1 "mytool"
        (Except.error { ty := "ValueError", msg := "x" } : Except PyExc String) =
      (exObs, Except.error traceTagsTypeError) ∧
    exObs.logger.log_buffer = [] ∧
    dictLookup "tool_mytool_errors" exObs.metrics.counters = none ∧
    dictLookup "tool_mytool_calls" exObs.metrics.counters = none ∧
    exObs.tracer.spans = [] :=
  ⟨rfl, rfl, rfl, rfl, rfl⟩
